import Mathlib

/-!
Verification of the feature-construction and label-mapping logic of the
health-triage app (src/app.py).

The app is embedded shallowly:

* Python values that can appear in the answer payload are modelled by `Val`
  (the string tokens, `None`, integers, and the float NaN default).
* Python dicts are modelled as insertion-ordered association lists with
  dict semantics: lookup finds the unique binding, assignment updates the
  binding in place or appends a new one, `setdefault` appends only when the
  key is absent.  This reproduces both the key-value behaviour and the
  iteration order that `pd.DataFrame([row])` uses for its columns.
* Library string operations used by the code (`str.strip`, `str.lower`,
  `str.replace`, `str.startswith`, the `in` substring test, `str()`) are
  given executable models on character lists so that every definition
  evaluates inside the kernel.
-/

/-- A Python value as it occurs in the answer payload / feature row:
a string token, `None`, an integer, or the float `nan` used as the
missing-value marker. -/
inductive Val where
  | vnone : Val
  | vstr : String → Val
  | vint : Int → Val
  | vnan : Val
deriving DecidableEq, Repr

abbrev Payload := List (String × Val)

/-- Python dict lookup `d.get(k)` returning `none` when the key is absent. -/
def dictGet {α : Type} : List (String × α) → String → Option α
  | [], _ => none
  | (k, v) :: d, q => if k = q then some v else dictGet d q

/-- Python dict assignment `d[k] = v`: update the existing binding in place
(keeping its position) or append a new binding at the end. -/
def dictSet {α : Type} : List (String × α) → String → α → List (String × α)
  | [], q, v => [(q, v)]
  | (k, w) :: d, q, v => if k = q then (k, v) :: d else (k, w) :: dictSet d q v

/-- Python `d.setdefault(k, v)`: insert `v` only when `k` is absent. -/
def dictSetdefault {α : Type} (d : List (String × α)) (q : String) (v : α) :
    List (String × α) :=
  match dictGet d q with
  | some _ => d
  | none => d ++ [(q, v)]

/-- The keys of a dict, in iteration order. -/
def keysOf {α : Type} (d : List (String × α)) : List String := d.map Prod.fst

/-- Whether `pat` is an initial segment of `s` (model of `str.startswith`
on character lists; structural, so it evaluates in the kernel). -/
def leadsWith : List Char → List Char → Bool
  | [], _ => true
  | _ :: _, [] => false
  | a :: as, b :: bs => a == b && leadsWith as bs

/-- Python substring test `pat in s` on character lists. -/
def hasSub (pat : List Char) : List Char → Bool
  | [] => leadsWith pat []
  | c :: rest => leadsWith pat (c :: rest) || hasSub pat rest

/-- Python `pat in s` on strings. -/
def hasSubStr (pat s : String) : Bool := hasSub pat.data s.data

/-- Python `s.startswith(pat)`. -/
def pyStartsWith (s pat : String) : Bool := leadsWith pat.data s.data

/-- Python `s.strip()` (whitespace from both ends). -/
def pyStrip (s : String) : String :=
  ⟨((s.data.dropWhile Char.isWhitespace).reverse.dropWhile Char.isWhitespace).reverse⟩

/-- Python `s.lower()`. -/
def pyLower (s : String) : String := ⟨s.data.map Char.toLower⟩

/-- Auxiliary for `pyReplace`: replace occurrences of `pat` left to right.
The fuel argument starts at the length of the string and decreases at every
step, so it never runs out; it only makes the recursion structural. -/
def pyReplaceAux (pat rep : List Char) : Nat → List Char → List Char
  | _, [] => []
  | 0, s => s
  | Nat.succ fuel, c :: rest =>
    if pat ≠ [] && leadsWith pat (c :: rest) then
      rep ++ pyReplaceAux pat rep fuel (List.drop (pat.length - 1) rest)
    else
      c :: pyReplaceAux pat rep fuel rest

/-- Python `s.replace(pat, rep)` (all occurrences, left to right), for a
non-empty pattern, as used by the red-flag scorer. -/
def pyReplace (s pat rep : String) : String :=
  ⟨pyReplaceAux pat.data rep.data s.data.length s.data⟩

/-- Python `str(v)` on payload values. -/
def pyStr : Val → String
  | Val.vnone => "None"
  | Val.vstr s => s
  | Val.vint n => toString n
  | Val.vnan => "nan"

/-- Python truthiness of a payload value (`nan` is truthy in Python). -/
def truthy : Val → Bool
  | Val.vnone => false
  | Val.vstr s => s != ""
  | Val.vint n => n != 0
  | Val.vnan => true

/-- Python `a or b` on payload values. -/
def pyOr (a b : Val) : Val := if truthy a then a else b

/-- Python `pl.get(k)` where an absent key yields `None`. -/
def pyGet (pl : Payload) (k : String) : Val := (dictGet pl k).getD Val.vnone

/-- Digit-string evaluation for the numeric parser. -/
def digitsToNatAux : List Char → Nat → Option Nat
  | [], acc => some acc
  | c :: rest, acc =>
    if c.isDigit then digitsToNatAux rest (acc * 10 + (c.toNat - 48)) else none

/-- A non-empty all-digit character list, as a number. -/
def parseDigits : List Char → Option Nat
  | [] => none
  | l => digitsToNatAux l 0

/-- The strings `pd.to_numeric` accepts, modelled for integer literals
(optional sign, digits, surrounding whitespace); everything else is
non-coercible. -/
def parseNumber (s : String) : Option Int :=
  match (pyStrip s).data with
  | '-' :: rest => (parseDigits rest).map (fun n => -(n : Int))
  | '+' :: rest => (parseDigits rest).map (fun n => (n : Int))
  | l => (parseDigits l).map (fun n => (n : Int))

/-- `pd.to_numeric(v, errors="coerce")` on payload values: numbers pass
through, coercible strings become their value, everything else (including
`None` and non-numeric strings) becomes NaN.  The enclosing `try/except`
of the source also maps any raising value to NaN, so the combined
behaviour is total. -/
def pyToNumeric : Val → Val
  | Val.vint n => Val.vint n
  | Val.vnan => Val.vnan
  | Val.vnone => Val.vnan
  | Val.vstr s =>
    match parseNumber s with
    | some n => Val.vint n
    | none => Val.vnan

/-! ## The feature schema (src/app.py lines 22-41)

The repository ships no `ui_assets/feature_schema.json`, so the loader's
`except` branch applies and the hardcoded fallback lists are the schema. -/

def CAT_FALLBACK : List String :=
  ["Has_Fever", "Fever_Level", "Fever_Duration_Level", "Chills",
   "Has_Cough", "Cough_Type", "Cough_Duration_Level", "Blood_Cough", "Breath_Difficulty",
   "Has_Headache", "Headache_Severity", "Headache_Duration_Level", "Photophobia", "Neck_Stiffness",
   "Has_Abdominal_Pain", "Pain_Location", "Pain_Duration_Level", "Nausea", "Diarrhea",
   "Has_Fatigue", "Fatigue_Severity", "Fatigue_Duration_Level", "Weight_Loss", "Fever_With_Fatigue",
   "Has_Vomiting", "Vomiting_Severity", "Vomiting_Duration_Level", "Blood_Vomit", "Unable_To_Keep_Fluids",
   "Age_Group"]

def NUM_FALLBACK : List String := ["Red_Flag_Count"]

def CAT_COLS : List String := CAT_FALLBACK

def NUM_COLS : List String := NUM_FALLBACK

def EXPECTED_COLS : List String := CAT_COLS ++ NUM_COLS

/-! ## Choice dictionaries (src/app.py lines 46-73) -/

def YN_MAP : List (String × String) := [("Yes", "haa"), ("No", "maya")]

def SEV_MAP : List (String × String) :=
  [("mild", "fudud"), ("moderate", "dhexdhexaad"), ("very severe", "aad u daran")]

def COUGH_MAP : List (String × String) :=
  [("dry", "qalalan"), ("wet/productive", "qoyan")]

def PAIN_MAP : List (String × String) :=
  [("upper abdomen", "caloosha sare"), ("lower abdomen", "caloosha hoose"),
   ("whole abdomen", "caloosha oo dhan")]

def AGE_MAP : List (String × String) :=
  [("child", "caruur"), ("adult", "qof weyn"), ("elderly", "waayeel")]

def DUR_TOKEN_TO_DISPLAY : List (String × String) :=
  [("fudud", "≤ 1 day"),
   ("dhexdhexaad", "2–3 days"),
   ("dhexdhexaad ah", "2–3 days"),
   ("aad u daran", "≥ 3 days")]

/-- The dict comprehension of src/app.py lines 69-72: iterate the pairs of
`DUR_TOKEN_TO_DISPLAY` in order, binding each display phrase to the
normalized token; a later pair with the same phrase overwrites an earlier
binding, exactly as a Python dict comprehension does. -/
def DUR_DISPLAY_TO_TOKEN : List (String × String) :=
  DUR_TOKEN_TO_DISPLAY.foldl
    (fun d kv =>
      dictSet d kv.2 (if pyStartsWith kv.1 "dhexdhexaad" then "dhexdhexaad" else kv.1))
    []

/-! ## Label dictionaries (src/app.py lines 76-97) -/

def TRIAGE_TIPS : List (String × String) :=
  [("Xaalad fudud (Daryeel guri)",
    "Rest at home, drink plenty of fluids, eat light meals, consider simple pain/fever relievers if needed, and monitor symptoms for 24 hours. Seek care if symptoms worsen."),
   ("Xaalad dhax dhaxaad eh (Bukaan socod)",
    "Visit a clinic within 24 hours for evaluation. Bring any prior prescriptions or records and keep hydrated."),
   ("Xaalad dhax dhaxaad ah (Bukaan socod)",
    "Visit a clinic within 24 hours for evaluation. Bring any prior prescriptions or records and keep hydrated."),
   ("Xaalad deg deg ah",
    "Go to the hospital immediately. Do not try home treatment. If possible, go with someone and bring prior prescriptions/records.")]

def LABEL_SO_TO_EN : List (String × String) :=
  [("Xaalad fudud (Daryeel guri)", "Mild condition (Home care)"),
   ("Xaalad dhax dhaxaad eh (Bukaan socod)", "Moderate condition (Outpatient)"),
   ("Xaalad dhax dhaxaad ah (Bukaan socod)", "Moderate condition (Outpatient)"),
   ("Xaalad deg deg ah", "Emergency")]

/-- The generic advice of src/app.py line 316, used when the label token has
no entry (or an empty entry) in `TRIAGE_TIPS`. -/
def GENERIC_ADVICE : String :=
  "General advice: if you are concerned about your condition, contact a healthcare provider."

/-- src/app.py line 291: `LABEL_SO_TO_EN.get(label_token, label_token)`. -/
def label_en (label_token : String) : String :=
  (dictGet LABEL_SO_TO_EN label_token).getD label_token

/-- src/app.py line 316: `TRIAGE_TIPS.get(label_token) or "General advice: ..."`.
`dict.get` yields `None` for an absent key, and Python `or` replaces any
falsy left operand (absent key, or an empty tip) by the generic sentence. -/
def tip_text (label_token : String) : String :=
  match dictGet TRIAGE_TIPS label_token with
  | some t => if t != "" then t else GENERIC_ADVICE
  | none => GENERIC_ADVICE

/-! ## Feature assembler (src/app.py lines 100-123)

`make_input_df` builds `row = {c: np.nan for c in EXPECTED_COLS}`, merges
the payload in with `row.update(payload or {})`, then rewrites every
categorical cell (`None` stays NaN, everything else is `str(v).strip()`
with the empty string mapped back to NaN — note that `str(np.nan)` is the
string "nan"), and every numeric cell through
`pd.to_numeric(..., errors="coerce")` with the `except` branch mapping to
NaN.  `pd.DataFrame([row])` then has one column per key of `row`, in the
dict iteration order; the trailing `astype("object")` loop changes neither
columns nor cell values.  The resulting one-row frame is modelled as the
final `row` dict itself. -/

/-- The categorical branch of src/app.py lines 106-112 applied to one cell. -/
def catCoerce (v : Val) : Val :=
  match v with
  | Val.vnone => Val.vnan
  | _ =>
    let s := pyStrip (pyStr v)
    if s = "" then Val.vnan else Val.vstr s

/-- `make_input_df`, read inside out: the NaN-initialized row over
`EXPECTED_COLS`, then `row.update(payload)`, then the categorical loop,
then the numeric loop. -/
def make_input_df (payload : Payload) : Payload :=
  NUM_COLS.foldl
    (fun r c => dictSet r c (pyToNumeric ((dictGet r c).getD Val.vnan)))
    (CAT_COLS.foldl
      (fun r c => dictSet r c (catCoerce ((dictGet r c).getD Val.vnan)))
      (payload.foldl (fun r kv => dictSet r kv.1 kv.2)
        (EXPECTED_COLS.map (fun c => (c, Val.vnan)))))

/-! ## Predictor adapter (src/app.py lines 125-132) -/

/-- `decode_label`: the optional label encoder is a partial decoder
`Int → Option String` (a `none` result stands for `inverse_transform`
raising, which the `except` swallows).  An available encoder is consulted
only for integer outputs; every other case returns `str(y)`. -/
def decode_label (le : Option (Int → Option String)) (y : Val) : String :=
  match le, y with
  | some enc, Val.vint n =>
    match enc n with
    | some tok => tok
    | none => pyStr y
  | _, _ => pyStr y

/-! ## Presentation mapper (src/app.py lines 134-145) -/

def RED_SCHEME : String × String × String := ("#FFEBEE", "#B71C1C", "#EF9A9A")

def AMBER_SCHEME : String × String × String := ("#FFF8E1", "#8D6E00", "#FFD54F")

def GREEN_SCHEME : String × String × String := ("#E8F5E9", "#1B5E20", "#A5D6A7")

/-- `triage_style_from_token`: lowercase the token (`t` in the source is
inlined here) and test for the emergency marker, then the moderate marker.
(`label_token or ""` in the source only converts a `None` argument to the
empty string; a string argument passes through unchanged, so the model
takes a `String`.) -/
def triage_style_from_token (label_token : String) : String × String × String :=
  if hasSubStr "deg deg" (pyLower label_token) then ("#FFEBEE", "#B71C1C", "#EF9A9A")
  else if hasSubStr "dhax dhaxaad" (pyLower label_token) then ("#FFF8E1", "#8D6E00", "#FFD54F")
  else ("#E8F5E9", "#1B5E20", "#A5D6A7")

/-! ## Red-flag scorer (src/app.py lines 267-278) -/

def dangerKeys : List String :=
  ["Breath_Difficulty", "Blood_Cough", "Neck_Stiffness", "Blood_Vomit",
   "Unable_To_Keep_Fluids"]

def sevKeys : List String :=
  ["Fever_Severity", "Headache_Severity", "Fatigue_Severity", "Vomiting_Severity"]

/-- `pl.get(sevk) or pl.get(sevk.replace("_Severity", "_Level"))`. -/
def sevAnswer (pl : Payload) (k : String) : Val :=
  pyOr (pyGet pl k) (pyGet pl (pyReplace k "_Severity" "_Level"))

def compute_red_flag_count (pl : Payload) : Nat :=
  let score := dangerKeys.foldl
    (fun s k => if pyGet pl k == Val.vstr "haa" then s + 1 else s) 0
  sevKeys.foldl
    (fun s k => if sevAnswer pl k == Val.vstr "aad u daran" then s + 1 else s) score

/-- Follows the words of claim C2: the severity answer falls back to the
corresponding _Level key only when the _Severity key is absent from the
payload. -/
def sevAnswerClaimed (pl : Payload) (k : String) : Val :=
  match dictGet pl k with
  | some v => v
  | none => pyGet pl (pyReplace k "_Severity" "_Level")

/-- The tally of claim C2 as stated. -/
def redFlagClaimed (pl : Payload) : Nat :=
  dangerKeys.countP (fun k => pyGet pl k == Val.vstr "haa")
    + sevKeys.countP (fun k => sevAnswerClaimed pl k == Val.vstr "aad u daran")

/-- The amended tally of C2: the fallback to the _Level key also applies
when the _Severity key is present but holds a falsy value (None or the
empty string), because the source uses Python `or`. -/
def redFlagAmended (pl : Payload) : Nat :=
  dangerKeys.countP (fun k => pyGet pl k == Val.vstr "haa")
    + sevKeys.countP (fun k =>
        (if truthy (pyGet pl k) then pyGet pl k
         else pyGet pl (pyReplace k "_Severity" "_Level")) == Val.vstr "aad u daran")

/-- Follows the words of claim C4: bind each display phrase to the
first-occurring token among those that render to it (setdefault keeps the
first binding). -/
def durFirstWins : List (String × String) :=
  DUR_TOKEN_TO_DISPLAY.foldl (fun d kv => dictSetdefault d kv.2 kv.1) []

/-! ## The symptom groups and payload construction (src/app.py lines 147-278)

The UI offers six symptom groups in a multiselect; `selected` is therefore
modelled as a list over the enumeration `Symptom` (the multiselect can only
yield keys of `SYMPTOMS`).  `render_select` returns either no value (the
user left the selectbox on its placeholder) or a token obtained from the
display choice through the group dictionaries; the display choice the user
made for widget `(group, col)` is modelled as an arbitrary
`Option String`, which over-approximates the finite set the selectbox
offers. -/

inductive Symptom where
  | fever | cough | headache | abdominal | fatigue | vomiting
deriving DecidableEq, Repr

/-- The six groups, in the order of the `SYMPTOMS` dict of the source. -/
def symptomList : List Symptom :=
  [Symptom.fever, Symptom.cough, Symptom.headache, Symptom.abdominal,
   Symptom.fatigue, Symptom.vomiting]

structure FieldCfg where
  col : String
  flabel : String
  wtype : String
deriving DecidableEq, Repr

structure SymCfg where
  flag : String
  fields : List FieldCfg
deriving DecidableEq, Repr

/-- The `SYMPTOMS` table of src/app.py lines 177-230. -/
def SYMPTOMS : Symptom → SymCfg
  | Symptom.fever =>
    ⟨"Has_Fever",
     [⟨"Fever_Level", "Fever severity", "sev"⟩,
      ⟨"Fever_Duration_Level", "Fever duration", "dur"⟩,
      ⟨"Chills", "Chills", "yn"⟩]⟩
  | Symptom.cough =>
    ⟨"Has_Cough",
     [⟨"Cough_Type", "Type of cough", "cough"⟩,
      ⟨"Cough_Duration_Level", "Cough duration", "dur"⟩,
      ⟨"Blood_Cough", "Coughing blood", "yn"⟩,
      ⟨"Breath_Difficulty", "Shortness of breath", "yn"⟩]⟩
  | Symptom.headache =>
    ⟨"Has_Headache",
     [⟨"Headache_Severity", "Headache severity", "sev"⟩,
      ⟨"Headache_Duration_Level", "Headache duration", "dur"⟩,
      ⟨"Photophobia", "Light sensitivity", "yn"⟩,
      ⟨"Neck_Stiffness", "Stiff neck", "yn"⟩]⟩
  | Symptom.abdominal =>
    ⟨"Has_Abdominal_Pain",
     [⟨"Pain_Location", "Abdominal pain location", "painloc"⟩,
      ⟨"Pain_Duration_Level", "Abdominal pain duration", "dur"⟩,
      ⟨"Nausea", "Nausea", "yn"⟩,
      ⟨"Diarrhea", "Diarrhea", "yn"⟩]⟩
  | Symptom.fatigue =>
    ⟨"Has_Fatigue",
     [⟨"Fatigue_Severity", "Fatigue severity", "sev"⟩,
      ⟨"Fatigue_Duration_Level", "Fatigue duration", "dur"⟩,
      ⟨"Weight_Loss", "Unintentional weight loss", "yn"⟩]⟩
  | Symptom.vomiting =>
    ⟨"Has_Vomiting",
     [⟨"Vomiting_Severity", "Vomiting severity", "sev"⟩,
      ⟨"Vomiting_Duration_Level", "Vomiting duration", "dur"⟩,
      ⟨"Blood_Vomit", "Vomiting blood", "yn"⟩,
      ⟨"Unable_To_Keep_Fluids", "Unable to keep fluids down", "yn"⟩]⟩

def ALL_FLAGS : List String := symptomList.map (fun g => (SYMPTOMS g).flag)

/-- `render_select` (src/app.py lines 147-174) given the display choice the
user made (or `none` for the untouched placeholder). -/
def render_select (wtype : String) (disp : Option String) : Option String :=
  if wtype = "yn" then
    match disp with | none => none | some d => dictGet YN_MAP d
  else if wtype = "sev" then
    match disp with | none => none | some d => dictGet SEV_MAP d
  else if wtype = "cough" then
    match disp with | none => none | some d => dictGet COUGH_MAP d
  else if wtype = "painloc" then
    match disp with | none => none | some d => dictGet PAIN_MAP d
  else if wtype = "dur" then
    match disp with
    | none => none
    | some d => some ((dictGet DUR_DISPLAY_TO_TOKEN d).getD d)
  else none

/-- The age-group selectbox offers exactly the three `AGE_DISPLAY` entries. -/
inductive AgeD where
  | child | adult | elderly
deriving DecidableEq, Repr

def ageDisp : AgeD → String
  | AgeD.child => "child"
  | AgeD.adult => "adult"
  | AgeD.elderly => "elderly"

/-- One step of the `for (col, label, wtype) in cfg["fields"]` loop:
`if val is not None: payload[col] = val`. -/
def fieldStep (ans : Symptom → String → Option String) (g : Symptom)
    (r : Payload) (f : FieldCfg) : Payload :=
  match render_select f.wtype (ans g f.col) with
  | some v => dictSet r f.col (Val.vstr v)
  | none => r

/-- One iteration of `for group in selected` (src/app.py lines 253-260):
set the group flag to the yes-token, then run the follow-up fields. -/
def processGroup (ans : Symptom → String → Option String)
    (r : Payload) (g : Symptom) : Payload :=
  let cfg := SYMPTOMS g
  cfg.fields.foldl (fieldStep ans g) (dictSet r cfg.flag (Val.vstr "haa"))

/-- The payload after src/app.py lines 246-248: empty dict, then
`payload["Age_Group"] = AGE_MAP[age_disp]` when an age was chosen.
(`AGE_MAP[age_disp]` cannot raise because the selectbox domain equals the
dict keys; the `.getD` default is unreachable.) -/
def payloadStage1 (age : Option AgeD) : Payload :=
  match age with
  | some a => dictSet [] "Age_Group"
      (Val.vstr ((dictGet AGE_MAP (ageDisp a)).getD (ageDisp a)))
  | none => []

/-- After src/app.py lines 249-250: every Has_* flag defaulted to the
no-token. -/
def payloadStage2 (age : Option AgeD) : Payload :=
  ALL_FLAGS.foldl (fun r fl => dictSetdefault r fl (Val.vstr "maya")) (payloadStage1 age)

/-- After the `for group in selected` loop of src/app.py lines 253-260. -/
def payloadStage3 (age : Option AgeD) (selected : List Symptom)
    (ans : Symptom → String → Option String) : Payload :=
  selected.foldl (processGroup ans) (payloadStage2 age)

/-- After the derived-feature statement of src/app.py lines 262-264. -/
def payloadStage4 (age : Option AgeD) (selected : List Symptom)
    (ans : Symptom → String → Option String) : Payload :=
  if (pyGet (payloadStage3 age selected ans) "Has_Fever" == Val.vstr "haa")
      && (pyGet (payloadStage3 age selected ans) "Has_Fatigue" == Val.vstr "haa") then
    dictSet (payloadStage3 age selected ans) "Fever_With_Fatigue" (Val.vstr "haa")
  else payloadStage3 age selected ans

/-- The complete payload construction of src/app.py lines 246-278, as a
function of the user inputs: the age choice, the selected symptom groups,
and the display choices made in the follow-up widgets. -/
def buildPayload (age : Option AgeD) (selected : List Symptom)
    (ans : Symptom → String → Option String) : Payload :=
  if "Red_Flag_Count" ∈ NUM_COLS then
    dictSet (payloadStage4 age selected ans) "Red_Flag_Count"
      (Val.vint (compute_red_flag_count (payloadStage4 age selected ans)))
  else payloadStage4 age selected ans

/-! ## Dict lemmas -/

theorem dictGet_dictSet {α : Type} (d : List (String × α)) (k q : String) (v : α) :
    dictGet (dictSet d k v) q = if k = q then some v else dictGet d q := by
  induction d with
  | nil =>
    by_cases h : k = q <;> simp [dictSet, dictGet, h]
  | cons a d ih =>
    obtain ⟨ak, av⟩ := a
    by_cases h : ak = k
    · subst h
      by_cases hq : ak = q <;> simp [dictSet, dictGet, hq]
    · by_cases hq : ak = q
      · subst hq
        have hkq : k ≠ ak := fun hh => h hh.symm
        simp [dictSet, dictGet, h, hkq]
      · simp [dictSet, dictGet, h, hq, ih]

theorem pyGet_dictSet (pl : Payload) (k q : String) (v : Val) :
    pyGet (dictSet pl k v) q = if k = q then v else pyGet pl q := by
  unfold pyGet
  rw [dictGet_dictSet]
  by_cases h : k = q <;> simp [h]

theorem dictGet_append_single {α : Type} (d : List (String × α)) (k q : String) (v : α)
    (h : dictGet d k = none) :
    dictGet (d ++ [(k, v)]) q = if k = q then some v else dictGet d q := by
  induction d with
  | nil => simp [dictGet]
  | cons a d ih =>
    obtain ⟨ak, av⟩ := a
    by_cases hak : ak = k
    · simp [dictGet, hak] at h
    · have h' : dictGet d k = none := by simpa [dictGet, hak] using h
      by_cases haq : ak = q
      · subst haq
        have hkq : k ≠ ak := fun hh => hak hh.symm
        simp [dictGet, hkq]
      · simp [dictGet, haq, ih h']

theorem dictGet_dictSetdefault {α : Type} (d : List (String × α)) (k q : String) (v : α) :
    dictGet (dictSetdefault d k v) q =
      if k = q then some ((dictGet d k).getD v) else dictGet d q := by
  unfold dictSetdefault
  cases h : dictGet d k with
  | some w =>
    by_cases hq : k = q
    · subst hq; simp [h]
    · simp [hq]
  | none =>
    rw [dictGet_append_single d k q v h]
    by_cases hq : k = q
    · subst hq; simp [h]
    · simp [hq]

theorem keysOf_append {α : Type} (d₁ d₂ : List (String × α)) :
    keysOf (d₁ ++ d₂) = keysOf d₁ ++ keysOf d₂ := by
  simp [keysOf]

theorem keysOf_dictSet {α : Type} (d : List (String × α)) (k : String) (v : α) :
    keysOf (dictSet d k v) = if k ∈ keysOf d then keysOf d else keysOf d ++ [k] := by
  induction d with
  | nil => simp [dictSet, keysOf]
  | cons a d ih =>
    obtain ⟨ak, av⟩ := a
    by_cases h : ak = k
    · subst h
      simp [dictSet, keysOf]
    · have hka : ¬(k = ak) := fun hh => h hh.symm
      have hset : dictSet ((ak, av) :: d) k v = (ak, av) :: dictSet d k v := by
        simp [dictSet, h]
      rw [hset]
      show ak :: keysOf (dictSet d k v) = _
      rw [ih]
      by_cases hk : k ∈ keysOf d
      · have hk' : k ∈ List.map Prod.fst d := hk
        simp [keysOf, hk', hka]
      · have hk' : k ∉ List.map Prod.fst d := hk
        simp [keysOf, hk', hka]

theorem keysOf_dictSet_mem {α : Type} {d : List (String × α)} {k : String} (v : α)
    (h : k ∈ keysOf d) : keysOf (dictSet d k v) = keysOf d := by
  rw [keysOf_dictSet]
  simp [h]

theorem dictGet_none_of_not_mem {α : Type} {d : List (String × α)} {k : String}
    (h : k ∉ keysOf d) : dictGet d k = none := by
  induction d with
  | nil => rfl
  | cons a d ih =>
    obtain ⟨ak, av⟩ := a
    have h' : k ∉ ak :: keysOf d := h
    have h1 : ¬ak = k := fun hh => h' (by rw [hh]; exact List.mem_cons_self _ _)
    have h2 : k ∉ keysOf d := fun hh => h' (List.mem_cons_of_mem _ hh)
    show dictGet ((ak, av) :: d) k = none
    simp [dictGet, h1, ih h2]

theorem not_mem_of_dictGet_none {α : Type} {d : List (String × α)} {k : String}
    (h : dictGet d k = none) : k ∉ keysOf d := by
  induction d with
  | nil => simp [keysOf]
  | cons a d ih =>
    obtain ⟨ak, av⟩ := a
    by_cases hak : ak = k
    · simp [dictGet, hak] at h
    · have h' : dictGet d k = none := by simpa [dictGet, hak] using h
      intro hmem
      rcases List.mem_cons.mp hmem with hh | hh
      · exact hak hh.symm
      · exact ih h' hh

/-! ## Fold lemmas -/

theorem dictGet_foldl_preserve {β : Type} (step : Payload → β → Payload)
    (cs : List β) (r : Payload) (q : String)
    (h : ∀ r c, c ∈ cs → dictGet (step r c) q = dictGet r q) :
    dictGet (cs.foldl step r) q = dictGet r q := by
  induction cs generalizing r with
  | nil => rfl
  | cons c cs ih =>
    rw [List.foldl_cons, ih _ (fun r c hc => h r c (List.mem_cons_of_mem _ hc)),
      h r c (List.mem_cons_self c cs)]

theorem keysOf_foldl_preserve {β : Type} (step : Payload → β → Payload)
    (cs : List β) (r : Payload)
    (h : ∀ r' c, c ∈ cs → keysOf r' = keysOf r → keysOf (step r' c) = keysOf r') :
    keysOf (cs.foldl step r) = keysOf r := by
  induction cs generalizing r with
  | nil => rfl
  | cons c cs ih =>
    have h1 : keysOf (step r c) = keysOf r := h r c (List.mem_cons_self c cs) rfl
    rw [List.foldl_cons]
    have := ih (step r c)
      (fun r' c' hc' hk => h r' c' (List.mem_cons_of_mem _ hc') (hk.trans h1))
    rw [this, h1]

theorem keysIn_foldl {β : Type} (step : Payload → β → Payload)
    (cs : List β) (r : Payload) (K : List String)
    (h : ∀ r' c, c ∈ cs → (∀ q ∈ keysOf r', q ∈ K) → ∀ q ∈ keysOf (step r' c), q ∈ K)
    (hr : ∀ q ∈ keysOf r, q ∈ K) :
    ∀ q ∈ keysOf (cs.foldl step r), q ∈ K := by
  induction cs generalizing r with
  | nil => exact hr
  | cons c cs ih =>
    rw [List.foldl_cons]
    exact ih (step r c)
      (fun r' c' hc' => h r' c' (List.mem_cons_of_mem _ hc'))
      (h r c (List.mem_cons_self c cs) hr)

theorem keysIn_dictSet {α : Type} {K : List String} {d : List (String × α)}
    {k : String} (v : α)
    (hd : ∀ q ∈ keysOf d, q ∈ K) (hk : k ∈ K) :
    ∀ q ∈ keysOf (dictSet d k v), q ∈ K := by
  intro q hq
  rw [keysOf_dictSet] at hq
  split at hq
  · exact hd q hq
  · rcases List.mem_append.mp hq with h | h
    · exact hd q h
    · simp at h
      subst h
      exact hk

theorem keysIn_dictSetdefault {α : Type} {K : List String} {d : List (String × α)}
    {k : String} (v : α)
    (hd : ∀ q ∈ keysOf d, q ∈ K) (hk : k ∈ K) :
    ∀ q ∈ keysOf (dictSetdefault d k v), q ∈ K := by
  intro q hq
  unfold dictSetdefault at hq
  split at hq
  · exact hd q hq
  · rw [keysOf_append] at hq
    rcases List.mem_append.mp hq with h | h
    · exact hd q h
    · simp [keysOf] at h
      subst h
      exact hk

/-- The value a nodup fold of per-column coercions leaves in column `k`. -/
theorem dictGet_foldl_coerce (F : Val → Val) (cs : List String) (hnd : cs.Nodup)
    (k : String) (hk : k ∈ cs) (r : Payload) :
    dictGet (cs.foldl (fun r c => dictSet r c (F ((dictGet r c).getD Val.vnan))) r) k
      = some (F ((dictGet r k).getD Val.vnan)) := by
  induction cs generalizing r with
  | nil => simp at hk
  | cons c cs ih =>
    rw [List.foldl_cons]
    rcases List.mem_cons.mp hk with h | h
    · subst h
      have hnotin : k ∉ cs := (List.nodup_cons.mp hnd).1
      rw [dictGet_foldl_preserve]
      · rw [dictGet_dictSet]
        simp
      · intro r' c' hc'
        rw [dictGet_dictSet]
        have : c' ≠ k := fun hh => hnotin (hh ▸ hc')
        simp [this]
    · have hc : c ≠ k := fun hh => (List.nodup_cons.mp hnd).1 (hh ▸ h)
      rw [ih (List.nodup_cons.mp hnd).2 h]
      rw [dictGet_dictSet]
      simp [hc]

/-- The value a fold of per-column coercions leaves in a column it never
touches. -/
theorem dictGet_foldl_coerce_ne (F : Val → Val) (cs : List String)
    (k : String) (hk : k ∉ cs) (r : Payload) :
    dictGet (cs.foldl (fun r c => dictSet r c (F ((dictGet r c).getD Val.vnan))) r) k
      = dictGet r k := by
  apply dictGet_foldl_preserve
  intro r' c hc
  rw [dictGet_dictSet]
  have : c ≠ k := fun hh => hk (hh ▸ hc)
  simp [this]

theorem foldl_count_eq {β : Type} (p : β → Bool) (l : List β) (n : Nat) :
    l.foldl (fun s k => if p k then s + 1 else s) n = n + l.countP p := by
  induction l generalizing n with
  | nil => simp
  | cons a l ih =>
    by_cases h : p a = true
    · simp [List.foldl_cons, h, ih, List.countP_cons]
      omega
    · simp [List.foldl_cons, h, ih, List.countP_cons]

/-! ## Red-flag scorer: facts and claims -/

theorem compute_red_flag_count_eq (pl : Payload) :
    compute_red_flag_count pl =
      dangerKeys.countP (fun k => pyGet pl k == Val.vstr "haa")
        + sevKeys.countP (fun k => sevAnswer pl k == Val.vstr "aad u daran") := by
  unfold compute_red_flag_count
  rw [foldl_count_eq, foldl_count_eq]
  omega

/-- C2 counterexample: on a payload whose Fever_Severity is present but
empty while Fever_Level is the very-severe token, the code scores 1 (the
falsy value falls through to Fever_Level) while the tally described by the
claim scores 0 (the key is present, so no fallback). -/
theorem red_flag_fallback_counterexample :
    compute_red_flag_count
        [("Fever_Severity", Val.vstr ""), ("Fever_Level", Val.vstr "aad u daran")] = 1
    ∧ redFlagClaimed
        [("Fever_Severity", Val.vstr ""), ("Fever_Level", Val.vstr "aad u daran")] = 0 := by
  decide

/-- C2 (amended): the red-flag scorer returns exactly the declarative
tally that counts the five danger-sign keys equal to the yes-token plus
the four severity answers equal to the very-severe token, where each
severity answer falls back from the _Severity key to the _Level key when
the former is absent or falsy.  The scorer is a pure function of the
payload: it returns only the count and cannot modify its argument. -/
theorem compute_red_flag_count_eq_amended (pl : Payload) :
    compute_red_flag_count pl = redFlagAmended pl := by
  rw [compute_red_flag_count_eq]
  rfl

theorem danger_sev_disjoint :
    ∀ k ∈ dangerKeys, ∀ a ∈ sevKeys,
      k ≠ a ∧ k ≠ pyReplace a "_Severity" "_Level" := by decide

theorem sev_level_disjoint :
    ∀ k ∈ sevKeys, ∀ a ∈ sevKeys, k ≠ pyReplace a "_Severity" "_Level" := by decide

theorem level_danger_disjoint :
    ∀ k ∈ sevKeys, ∀ a ∈ dangerKeys, pyReplace k "_Severity" "_Level" ≠ a := by decide

theorem level_level_inj :
    ∀ k ∈ sevKeys, ∀ a ∈ sevKeys, k ≠ a →
      pyReplace k "_Severity" "_Level" ≠ pyReplace a "_Severity" "_Level" := by decide

/-- C3: for every payload the red-flag count is at most 9 (and at least 0,
being a `Nat` built only from increments), and it is monotone: setting any
danger-sign key to the yes-token, or any severity answer (a _Severity key
or its _Level alternate) to the very-severe token, never decreases it. -/
theorem red_flag_count_bounds_monotone (pl : Payload) :
    compute_red_flag_count pl ≤ 9
    ∧ (∀ k ∈ dangerKeys, pyGet pl k ≠ Val.vstr "haa" →
        compute_red_flag_count pl ≤ compute_red_flag_count (dictSet pl k (Val.vstr "haa")))
    ∧ (∀ k ∈ sevKeys, pyGet pl k ≠ Val.vstr "aad u daran" →
        compute_red_flag_count pl ≤
          compute_red_flag_count (dictSet pl k (Val.vstr "aad u daran")))
    ∧ (∀ k ∈ sevKeys, pyGet pl (pyReplace k "_Severity" "_Level") ≠ Val.vstr "aad u daran" →
        compute_red_flag_count pl ≤
          compute_red_flag_count
            (dictSet pl (pyReplace k "_Severity" "_Level") (Val.vstr "aad u daran"))) := by
  refine ⟨?_, ?_, ?_, ?_⟩
  · rw [compute_red_flag_count_eq]
    have h1 : dangerKeys.countP (fun k => pyGet pl k == Val.vstr "haa")
        ≤ dangerKeys.length := List.countP_le_length _
    have h2 : sevKeys.countP (fun k => sevAnswer pl k == Val.vstr "aad u daran")
        ≤ sevKeys.length := List.countP_le_length _
    have h3 : dangerKeys.length = 5 := rfl
    have h4 : sevKeys.length = 4 := rfl
    omega
  · intro k hk _
    rw [compute_red_flag_count_eq, compute_red_flag_count_eq]
    apply Nat.add_le_add
    · apply List.countP_mono_left
      intro a ha hp
      rw [pyGet_dictSet]
      by_cases hak : k = a
      · simp [hak]
      · simpa [hak] using hp
    · apply Nat.le_of_eq
      apply List.countP_congr
      intro a ha
      have hd := danger_sev_disjoint k hk a ha
      have he : sevAnswer (dictSet pl k (Val.vstr "haa")) a = sevAnswer pl a := by
        simp [sevAnswer, pyGet_dictSet, hd.1, hd.2]
      rw [he]
  · intro k hk _
    rw [compute_red_flag_count_eq, compute_red_flag_count_eq]
    apply Nat.add_le_add
    · apply Nat.le_of_eq
      apply List.countP_congr
      intro a ha
      have h1 : k ≠ a := ((danger_sev_disjoint a ha k hk).1).symm
      rw [pyGet_dictSet]
      simp [h1]
    · apply List.countP_mono_left
      intro a ha hp
      by_cases hak : a = k
      · subst hak
        have ht : truthy (Val.vstr "aad u daran") = true := by decide
        simp [sevAnswer, pyOr, pyGet_dictSet, ht]
      · have h2 : k ≠ a := fun hh => hak hh.symm
        have h3 : k ≠ pyReplace a "_Severity" "_Level" := sev_level_disjoint k hk a ha
        have he : sevAnswer (dictSet pl k (Val.vstr "aad u daran")) a = sevAnswer pl a := by
          simp [sevAnswer, pyGet_dictSet, h2, h3]
        rw [he]
        exact hp
  · intro k hk _
    rw [compute_red_flag_count_eq, compute_red_flag_count_eq]
    apply Nat.add_le_add
    · apply Nat.le_of_eq
      apply List.countP_congr
      intro a ha
      have h1 : pyReplace k "_Severity" "_Level" ≠ a := level_danger_disjoint k hk a ha
      rw [pyGet_dictSet]
      simp [h1]
    · apply List.countP_mono_left
      intro a ha hp
      by_cases hak : a = k
      · subst hak
        have h2 : pyReplace a "_Severity" "_Level" ≠ a := (sev_level_disjoint a ha a ha).symm
        have e1 : pyGet (dictSet pl (pyReplace a "_Severity" "_Level") (Val.vstr "aad u daran")) a
            = pyGet pl a := by
          rw [pyGet_dictSet]
          simp [h2]
        have e2 : pyGet (dictSet pl (pyReplace a "_Severity" "_Level") (Val.vstr "aad u daran"))
            (pyReplace a "_Severity" "_Level") = Val.vstr "aad u daran" := by
          rw [pyGet_dictSet]
          simp
        unfold sevAnswer at hp ⊢
        rw [e1, e2]
        unfold pyOr at hp ⊢
        by_cases ht : truthy (pyGet pl a) = true
        · rw [if_pos ht] at hp ⊢
          exact hp
        · rw [if_neg ht]
          simp
      · have h2 : pyReplace k "_Severity" "_Level" ≠ a :=
          (sev_level_disjoint a ha k hk).symm
        have h3 : pyReplace k "_Severity" "_Level" ≠ pyReplace a "_Severity" "_Level" :=
          level_level_inj k hk a ha (fun hh => hak hh.symm)
        have he : sevAnswer (dictSet pl (pyReplace k "_Severity" "_Level")
            (Val.vstr "aad u daran")) a = sevAnswer pl a := by
          simp [sevAnswer, pyGet_dictSet, h2, h3]
        rw [he]
        exact hp

/-- Witness for C3 at concrete inputs. -/
theorem red_flag_count_bounds_monotone_witness :
    compute_red_flag_count [] ≤ 9
    ∧ compute_red_flag_count [] ≤
        compute_red_flag_count (dictSet [] "Breath_Difficulty" (Val.vstr "haa"))
    ∧ compute_red_flag_count [] ≤
        compute_red_flag_count (dictSet [] "Fever_Severity" (Val.vstr "aad u daran"))
    ∧ compute_red_flag_count [] ≤
        compute_red_flag_count (dictSet [] "Fever_Level" (Val.vstr "aad u daran")) :=
  ⟨(red_flag_count_bounds_monotone []).1,
   (red_flag_count_bounds_monotone []).2.1 "Breath_Difficulty" (by decide) (by decide),
   (red_flag_count_bounds_monotone []).2.2.1 "Fever_Severity" (by decide) (by decide),
   (red_flag_count_bounds_monotone []).2.2.2 "Fever_Severity" (by decide) (by decide)⟩

/-! ## Feature assembler: facts and claims -/

theorem cat_nodup : CAT_COLS.Nodup := by decide

theorem num_nodup : NUM_COLS.Nodup := by decide

theorem keysOf_initRow :
    keysOf (EXPECTED_COLS.map (fun c => (c, Val.vnan))) = EXPECTED_COLS := by
  unfold keysOf
  rw [List.map_map]
  exact List.map_id _

theorem dictGet_map_const (L : List String) (c : String) (hc : c ∈ L) :
    dictGet (L.map (fun x => (x, Val.vnan))) c = some Val.vnan := by
  induction L with
  | nil => simp at hc
  | cons a L ih =>
    by_cases h : a = c
    · simp [dictGet, h]
    · rcases List.mem_cons.mp hc with hh | hh
      · exact absurd hh.symm h
      · simp [dictGet, h, ih hh]

/-- The column list of the assembled row, for payloads whose keys all lie
in the schema. -/
theorem make_input_df_keys (pl : Payload)
    (h : ∀ kv ∈ pl, kv.1 ∈ EXPECTED_COLS) :
    keysOf (make_input_df pl) = EXPECTED_COLS := by
  unfold make_input_df
  have hupd : keysOf (pl.foldl (fun r kv => dictSet r kv.1 kv.2)
      (EXPECTED_COLS.map (fun c => (c, Val.vnan)))) = EXPECTED_COLS := by
    rw [keysOf_foldl_preserve]
    · exact keysOf_initRow
    · intro r' kv hkv hkeq
      exact keysOf_dictSet_mem _ (by rw [hkeq, keysOf_initRow]; exact h kv hkv)
  have hcat : keysOf (CAT_COLS.foldl
      (fun r c => dictSet r c (catCoerce ((dictGet r c).getD Val.vnan)))
      (pl.foldl (fun r kv => dictSet r kv.1 kv.2)
        (EXPECTED_COLS.map (fun c => (c, Val.vnan))))) = EXPECTED_COLS := by
    rw [keysOf_foldl_preserve]
    · exact hupd
    · intro r' c hc hkeq
      apply keysOf_dictSet_mem
      rw [hkeq, hupd]
      exact List.mem_append_left _ hc
  rw [keysOf_foldl_preserve]
  · exact hcat
  · intro r' c hc hkeq
    apply keysOf_dictSet_mem
    rw [hkeq, hcat]
    exact List.mem_append_right _ hc

/-- The assembled value of a categorical column supplied alone. -/
theorem make_input_df_get_cat_single (c : String) (hc : c ∈ CAT_COLS)
    (hn : c ∉ NUM_COLS) (v : Val) :
    dictGet (make_input_df [(c, v)]) c = some (catCoerce v) := by
  unfold make_input_df
  rw [dictGet_foldl_coerce_ne _ _ _ hn]
  rw [dictGet_foldl_coerce _ _ cat_nodup c hc]
  show some (catCoerce ((dictGet (dictSet _ c v) c).getD Val.vnan)) = _
  rw [dictGet_dictSet]
  simp

/-- The assembled value of a categorical column the payload does not
mention: the NaN default is stringified to "nan". -/
theorem make_input_df_get_cat_absent (c : String) (hc : c ∈ CAT_COLS)
    (hn : c ∉ NUM_COLS) (pl : Payload) (hpl : dictGet pl c = none) :
    dictGet (make_input_df pl) c = some (catCoerce Val.vnan) := by
  unfold make_input_df
  rw [dictGet_foldl_coerce_ne _ _ _ hn]
  rw [dictGet_foldl_coerce _ _ cat_nodup c hc]
  have hupd : dictGet (pl.foldl (fun r kv => dictSet r kv.1 kv.2)
      (EXPECTED_COLS.map (fun c => (c, Val.vnan)))) c
      = dictGet (EXPECTED_COLS.map (fun c => (c, Val.vnan))) c := by
    apply dictGet_foldl_preserve
    intro r kv hkv
    rw [dictGet_dictSet]
    have hne : kv.1 ≠ c := by
      intro hh
      exact not_mem_of_dictGet_none hpl (hh ▸ List.mem_map_of_mem Prod.fst hkv)
    simp [hne]
  rw [hupd, dictGet_map_const EXPECTED_COLS c
    (show c ∈ EXPECTED_COLS from List.mem_append_left _ hc)]
  rfl

/-- The assembled value of the numeric column supplied alone. -/
theorem make_input_df_get_num_single (v : Val) :
    dictGet (make_input_df [("Red_Flag_Count", v)]) "Red_Flag_Count"
      = some (pyToNumeric v) := by
  unfold make_input_df
  rw [dictGet_foldl_coerce _ _ num_nodup _ (by decide)]
  rw [dictGet_foldl_coerce_ne _ _ _ (by decide : "Red_Flag_Count" ∉ CAT_COLS)]
  show some (pyToNumeric ((dictGet (dictSet _ "Red_Flag_Count" v) _).getD Val.vnan)) = _
  rw [dictGet_dictSet]
  simp

/-- C6: for every value supplied for the numeric schema column the
assembler is total (never raises): the assembled cell is exactly the
`to_numeric` coercion, which is always a number or NaN — NaN whenever a
string does not parse as a number, the parsed value when it does, and the
number itself for numeric input. -/
theorem numeric_coercion_total (v : Val) :
    dictGet (make_input_df [("Red_Flag_Count", v)]) "Red_Flag_Count"
        = some (pyToNumeric v)
    ∧ ((∃ n : Int, pyToNumeric v = Val.vint n) ∨ pyToNumeric v = Val.vnan)
    ∧ (∀ s, v = Val.vstr s → parseNumber s = none → pyToNumeric v = Val.vnan)
    ∧ (∀ s n, v = Val.vstr s → parseNumber s = some n → pyToNumeric v = Val.vint n)
    ∧ (∀ n : Int, v = Val.vint n → pyToNumeric v = Val.vint n) := by
  refine ⟨make_input_df_get_num_single v, ?_, ?_, ?_, ?_⟩
  · cases v with
    | vstr s =>
      cases h : parseNumber s with
      | some n => exact Or.inl ⟨n, by simp [pyToNumeric, h]⟩
      | none => exact Or.inr (by simp [pyToNumeric, h])
    | vint n => exact Or.inl ⟨n, rfl⟩
    | vnan => exact Or.inr rfl
    | vnone => exact Or.inr rfl
  · intro s hs hp
    subst hs
    simp [pyToNumeric, hp]
  · intro s n hs hp
    subst hs
    simp [pyToNumeric, hp]
  · intro n hn
    subst hn
    rfl

/-- Witness for C6 at concrete inputs. -/
theorem numeric_coercion_total_witness :
    pyToNumeric (Val.vstr "abc") = Val.vnan
    ∧ pyToNumeric (Val.vstr "42") = Val.vint 42 :=
  ⟨(numeric_coercion_total (Val.vstr "abc")).2.2.1 "abc" rfl (by decide),
   (numeric_coercion_total (Val.vstr "42")).2.2.2.1 "42" 42 rfl (by decide)⟩

/-- C7 counterexample: on the empty payload, the column Chills (absent
from the payload) is assembled as the string "nan", not as NaN, because
the categorical loop stringifies the NaN default. -/
theorem categorical_absent_counterexample :
    dictGet (make_input_df []) "Chills" = some (Val.vstr "nan")
    ∧ Val.vstr "nan" ≠ Val.vnan := by
  decide

/-- C7 (amended): every supplied categorical value is stringified and
trimmed; a None value or a value trimming to the empty string is
assembled as NaN, any other value as its trimmed string — in particular
a supplied NaN, and likewise an absent column (whose default is NaN), is
assembled as the string "nan". -/
theorem categorical_coercion_amended (v : Val) :
    dictGet (make_input_df [("Chills", v)]) "Chills" = some (catCoerce v)
    ∧ (v = Val.vnone → catCoerce v = Val.vnan)
    ∧ (∀ s, v = Val.vstr s → pyStrip s = "" → catCoerce v = Val.vnan)
    ∧ (∀ s, v = Val.vstr s → pyStrip s ≠ "" → catCoerce v = Val.vstr (pyStrip s))
    ∧ (v = Val.vnan → catCoerce v = Val.vstr "nan")
    ∧ dictGet (make_input_df []) "Chills" = some (Val.vstr "nan") := by
  refine ⟨make_input_df_get_cat_single _ (by decide) (by decide) v, ?_, ?_, ?_, ?_, ?_⟩
  · intro h
    subst h
    rfl
  · intro s hs hp
    subst hs
    simp [catCoerce, pyStr, hp]
  · intro s hs hp
    subst hs
    simp [catCoerce, pyStr, hp]
  · intro h
    subst h
    rfl
  · exact make_input_df_get_cat_absent _ (by decide) (by decide) _ rfl

/-- Witness for C7 at concrete inputs. -/
theorem categorical_coercion_amended_witness :
    catCoerce (Val.vstr "  haa ") = Val.vstr "haa"
    ∧ catCoerce Val.vnone = Val.vnan :=
  ⟨(categorical_coercion_amended (Val.vstr "  haa ")).2.2.2.1 "  haa " rfl (by decide),
   (categorical_coercion_amended Val.vnone).2.1 rfl⟩

/-! ## Payload construction: facts about the symptom table -/

theorem flag_mem_expected : ∀ g : Symptom, (SYMPTOMS g).flag ∈ EXPECTED_COLS := by
  intro g
  cases g <;> decide

theorem fields_mem_expected :
    ∀ g : Symptom, ∀ f ∈ (SYMPTOMS g).fields, f.col ∈ EXPECTED_COLS := by
  intro g
  cases g <;> decide

theorem flag_not_field :
    ∀ g g0 : Symptom, (SYMPTOMS g0).flag ∉ (SYMPTOMS g).fields.map FieldCfg.col := by
  intro g g0
  cases g <;> cases g0 <;> decide

theorem flag_inj : ∀ g g0 : Symptom, (SYMPTOMS g0).flag = (SYMPTOMS g).flag → g0 = g := by
  intro g g0
  cases g <;> cases g0 <;> decide

theorem flag_mem_all_flags : ∀ g : Symptom, (SYMPTOMS g).flag ∈ ALL_FLAGS := by
  intro g
  cases g <;> decide

theorem flag_ne_age : ∀ g : Symptom, (SYMPTOMS g).flag ≠ "Age_Group" := by
  intro g
  cases g <;> decide

theorem fwf_not_flag : ∀ g : Symptom, "Fever_With_Fatigue" ≠ (SYMPTOMS g).flag := by
  intro g
  cases g <;> decide

theorem fwf_not_field :
    ∀ g : Symptom, "Fever_With_Fatigue" ∉ (SYMPTOMS g).fields.map FieldCfg.col := by
  intro g
  cases g <;> decide

theorem fwf_not_all_flags : "Fever_With_Fatigue" ∉ ALL_FLAGS := by decide

theorem rfc_not_flag : ∀ g : Symptom, "Red_Flag_Count" ≠ (SYMPTOMS g).flag := by
  intro g
  cases g <;> decide

/-! ## Setdefault fold lemmas -/

theorem dictGet_foldl_setdefault_not_mem (L : List String) (r : Payload) (v : Val)
    (k : String) (hk : k ∉ L) :
    dictGet (L.foldl (fun r fl => dictSetdefault r fl v) r) k = dictGet r k := by
  induction L generalizing r with
  | nil => rfl
  | cons fl L ih =>
    have h1 : fl ≠ k := fun hh => hk (hh ▸ List.mem_cons_self fl L)
    rw [List.foldl_cons, ih _ (fun hh => hk (List.mem_cons_of_mem _ hh)),
      dictGet_dictSetdefault]
    simp [h1]

theorem dictGet_foldl_setdefault_some (L : List String) (r : Payload) (v : Val)
    (k : String) (w : Val) (h : dictGet r k = some w) :
    dictGet (L.foldl (fun r fl => dictSetdefault r fl v) r) k = some w := by
  induction L generalizing r with
  | nil => exact h
  | cons fl L ih =>
    rw [List.foldl_cons]
    apply ih
    rw [dictGet_dictSetdefault]
    by_cases hfl : fl = k
    · subst hfl
      simp [h]
    · simp [hfl, h]

theorem dictGet_foldl_setdefault_mem (L : List String) (r : Payload) (v : Val)
    (k : String) (hk : k ∈ L) (h : dictGet r k = none) :
    dictGet (L.foldl (fun r fl => dictSetdefault r fl v) r) k = some v := by
  induction L generalizing r with
  | nil => simp at hk
  | cons fl L ih =>
    rw [List.foldl_cons]
    by_cases hfl : fl = k
    · subst hfl
      apply dictGet_foldl_setdefault_some
      rw [dictGet_dictSetdefault]
      simp [h]
    · rcases List.mem_cons.mp hk with hh | hh
      · exact absurd hh.symm hfl
      · refine ih _ hh ?_
        rw [dictGet_dictSetdefault]
        simp [hfl, h]

/-! ## Group-loop lemmas -/

theorem fields_fold_get_ne (ans : Symptom → String → Option String) (g : Symptom)
    (fields : List FieldCfg) (r : Payload) (k : String)
    (hk : k ∉ fields.map FieldCfg.col) :
    dictGet (fields.foldl (fieldStep ans g) r) k = dictGet r k := by
  apply dictGet_foldl_preserve
  intro r' f hf
  have h1 : f.col ≠ k := by
    intro hh
    exact hk (hh ▸ List.mem_map_of_mem FieldCfg.col hf)
  unfold fieldStep
  split
  · rw [dictGet_dictSet]
    simp [h1]
  · rfl

theorem processGroup_get_ne (ans : Symptom → String → Option String)
    (r : Payload) (g : Symptom) (k : String)
    (h1 : k ≠ (SYMPTOMS g).flag) (h2 : k ∉ (SYMPTOMS g).fields.map FieldCfg.col) :
    dictGet (processGroup ans r g) k = dictGet r k := by
  unfold processGroup
  rw [fields_fold_get_ne _ _ _ _ _ h2, dictGet_dictSet]
  have h3 : ¬((SYMPTOMS g).flag = k) := fun hh => h1 hh.symm
  simp [h3]

theorem processGroup_get_flag (ans : Symptom → String → Option String)
    (r : Payload) (g : Symptom) :
    dictGet (processGroup ans r g) (SYMPTOMS g).flag = some (Val.vstr "haa") := by
  unfold processGroup
  rw [fields_fold_get_ne _ _ _ _ _ (flag_not_field g g), dictGet_dictSet]
  simp

theorem groups_fold_get_flag (ans : Symptom → String → Option String)
    (sel : List Symptom) (r : Payload) (g0 : Symptom) :
    dictGet (sel.foldl (processGroup ans) r) (SYMPTOMS g0).flag
      = if g0 ∈ sel then some (Val.vstr "haa") else dictGet r (SYMPTOMS g0).flag := by
  induction sel generalizing r with
  | nil => simp
  | cons g sel ih =>
    rw [List.foldl_cons, ih]
    by_cases hmem : g0 ∈ sel
    · simp [hmem, List.mem_cons]
    · by_cases hg : g0 = g
      · subst hg
        simp [hmem, List.mem_cons, processGroup_get_flag]
      · have h1 : (SYMPTOMS g0).flag ≠ (SYMPTOMS g).flag :=
          fun hh => hg (flag_inj g g0 hh)
        rw [processGroup_get_ne _ _ _ _ h1 (flag_not_field g g0)]
        have h2 : g0 ∉ g :: sel := by
          intro hh
          rcases List.mem_cons.mp hh with hh | hh
          · exact hg hh
          · exact hmem hh
        simp [hmem, h2]

theorem groups_fold_get_ne (ans : Symptom → String → Option String)
    (sel : List Symptom) (r : Payload) (k : String)
    (h : ∀ g : Symptom, k ≠ (SYMPTOMS g).flag ∧ k ∉ (SYMPTOMS g).fields.map FieldCfg.col) :
    dictGet (sel.foldl (processGroup ans) r) k = dictGet r k := by
  apply dictGet_foldl_preserve
  intro r' g hg
  exact processGroup_get_ne ans r' g k (h g).1 (h g).2

/-! ## Payload stage lemmas -/

theorem stage1_get_ne (age : Option AgeD) (k : String) (h : k ≠ "Age_Group") :
    dictGet (payloadStage1 age) k = none := by
  cases age with
  | none => rfl
  | some a =>
    unfold payloadStage1
    rw [dictGet_dictSet]
    have h1 : ¬("Age_Group" = k) := fun hh => h hh.symm
    simp [h1, dictGet]

theorem stage2_get_flag (age : Option AgeD) (g : Symptom) :
    dictGet (payloadStage2 age) (SYMPTOMS g).flag = some (Val.vstr "maya") := by
  unfold payloadStage2
  exact dictGet_foldl_setdefault_mem _ _ _ _ (flag_mem_all_flags g)
    (stage1_get_ne age _ (flag_ne_age g))

theorem stage2_get_fwf (age : Option AgeD) :
    dictGet (payloadStage2 age) "Fever_With_Fatigue" = none := by
  unfold payloadStage2
  rw [dictGet_foldl_setdefault_not_mem _ _ _ _ fwf_not_all_flags]
  exact stage1_get_ne age _ (by decide)

theorem stage3_get_flag (age : Option AgeD) (sel : List Symptom)
    (ans : Symptom → String → Option String) (g : Symptom) :
    dictGet (payloadStage3 age sel ans) (SYMPTOMS g).flag
      = some (Val.vstr (if g ∈ sel then "haa" else "maya")) := by
  unfold payloadStage3
  rw [groups_fold_get_flag]
  by_cases h : g ∈ sel
  · simp [h]
  · simp [h, stage2_get_flag]

theorem stage3_get_fwf (age : Option AgeD) (sel : List Symptom)
    (ans : Symptom → String → Option String) :
    dictGet (payloadStage3 age sel ans) "Fever_With_Fatigue" = none := by
  unfold payloadStage3
  rw [groups_fold_get_ne]
  · exact stage2_get_fwf age
  · intro g
    exact ⟨fwf_not_flag g, fwf_not_field g⟩

theorem stage4_get_fwf (age : Option AgeD) (sel : List Symptom)
    (ans : Symptom → String → Option String) :
    dictGet (payloadStage4 age sel ans) "Fever_With_Fatigue"
      = if Symptom.fever ∈ sel ∧ Symptom.fatigue ∈ sel
        then some (Val.vstr "haa") else none := by
  unfold payloadStage4
  have hf : pyGet (payloadStage3 age sel ans) "Has_Fever"
      = Val.vstr (if Symptom.fever ∈ sel then "haa" else "maya") := by
    unfold pyGet
    rw [show "Has_Fever" = (SYMPTOMS Symptom.fever).flag from rfl, stage3_get_flag]
    rfl
  have ht : pyGet (payloadStage3 age sel ans) "Has_Fatigue"
      = Val.vstr (if Symptom.fatigue ∈ sel then "haa" else "maya") := by
    unfold pyGet
    rw [show "Has_Fatigue" = (SYMPTOMS Symptom.fatigue).flag from rfl, stage3_get_flag]
    rfl
  have e1 : (Val.vstr "maya" == Val.vstr "haa") = false := by decide
  have e2 : (Val.vstr "haa" == Val.vstr "haa") = true := by decide
  rw [hf, ht]
  by_cases h1 : Symptom.fever ∈ sel
  · by_cases h2 : Symptom.fatigue ∈ sel
    · simp only [h1, h2, if_pos, e2, Bool.and_self, if_true, and_self]
      rw [dictGet_dictSet]
      simp
    · simp only [h1, if_pos, h2, if_neg, e1, e2, Bool.true_and, Bool.false_eq_true,
        if_false]
      simp [h2, stage3_get_fwf]
  · simp only [h1, if_neg, e1, Bool.false_and, Bool.false_eq_true, if_false]
    simp [h1, stage3_get_fwf]

theorem stage4_get_flag (age : Option AgeD) (sel : List Symptom)
    (ans : Symptom → String → Option String) (g : Symptom) :
    dictGet (payloadStage4 age sel ans) (SYMPTOMS g).flag
      = some (Val.vstr (if g ∈ sel then "haa" else "maya")) := by
  unfold payloadStage4
  split
  · rw [dictGet_dictSet]
    simp [fwf_not_flag g, stage3_get_flag]
  · exact stage3_get_flag age sel ans g

theorem buildPayload_eq (age : Option AgeD) (sel : List Symptom)
    (ans : Symptom → String → Option String) :
    buildPayload age sel ans
      = dictSet (payloadStage4 age sel ans) "Red_Flag_Count"
          (Val.vint (compute_red_flag_count (payloadStage4 age sel ans))) := by
  unfold buildPayload
  rw [if_pos (by decide : "Red_Flag_Count" ∈ NUM_COLS)]

theorem buildPayload_get_fwf (age : Option AgeD) (sel : List Symptom)
    (ans : Symptom → String → Option String) :
    dictGet (buildPayload age sel ans) "Fever_With_Fatigue"
      = if Symptom.fever ∈ sel ∧ Symptom.fatigue ∈ sel
        then some (Val.vstr "haa") else none := by
  rw [buildPayload_eq, dictGet_dictSet]
  rw [if_neg (by decide : ¬("Red_Flag_Count" = "Fever_With_Fatigue"))]
  exact stage4_get_fwf age sel ans

theorem buildPayload_get_flag (age : Option AgeD) (sel : List Symptom)
    (ans : Symptom → String → Option String) (g : Symptom) :
    dictGet (buildPayload age sel ans) (SYMPTOMS g).flag
      = some (Val.vstr (if g ∈ sel then "haa" else "maya")) := by
  rw [buildPayload_eq, dictGet_dictSet]
  rw [if_neg (rfc_not_flag g)]
  exact stage4_get_flag age sel ans g

/-! ## Payload keys lie in the schema -/

theorem stage1_keys (age : Option AgeD) :
    ∀ q ∈ keysOf (payloadStage1 age), q ∈ EXPECTED_COLS := by
  cases age with
  | none => intro q hq; simp [payloadStage1, keysOf] at hq
  | some a =>
    apply keysIn_dictSet
    · intro q hq
      simp [keysOf] at hq
    · decide

theorem stage2_keys (age : Option AgeD) :
    ∀ q ∈ keysOf (payloadStage2 age), q ∈ EXPECTED_COLS := by
  unfold payloadStage2
  apply keysIn_foldl
  · intro r' fl hfl hr'
    apply keysIn_dictSetdefault _ hr'
    have : ∀ fl ∈ ALL_FLAGS, fl ∈ EXPECTED_COLS := by decide
    exact this fl hfl
  · exact stage1_keys age

theorem processGroup_keys (ans : Symptom → String → Option String) (g : Symptom)
    (r : Payload) (hr : ∀ q ∈ keysOf r, q ∈ EXPECTED_COLS) :
    ∀ q ∈ keysOf (processGroup ans r g), q ∈ EXPECTED_COLS := by
  unfold processGroup
  apply keysIn_foldl
  · intro r' f hf hr'
    unfold fieldStep
    split
    · exact keysIn_dictSet _ hr' (fields_mem_expected g f hf)
    · exact hr'
  · exact keysIn_dictSet _ hr (flag_mem_expected g)

theorem stage3_keys (age : Option AgeD) (sel : List Symptom)
    (ans : Symptom → String → Option String) :
    ∀ q ∈ keysOf (payloadStage3 age sel ans), q ∈ EXPECTED_COLS := by
  unfold payloadStage3
  apply keysIn_foldl
  · intro r' g hg hr'
    exact processGroup_keys ans g r' hr'
  · exact stage2_keys age

theorem stage4_keys (age : Option AgeD) (sel : List Symptom)
    (ans : Symptom → String → Option String) :
    ∀ q ∈ keysOf (payloadStage4 age sel ans), q ∈ EXPECTED_COLS := by
  unfold payloadStage4
  split
  · exact keysIn_dictSet _ (stage3_keys age sel ans) (by decide)
  · exact stage3_keys age sel ans

theorem buildPayload_keys (age : Option AgeD) (sel : List Symptom)
    (ans : Symptom → String → Option String) :
    ∀ q ∈ keysOf (buildPayload age sel ans), q ∈ EXPECTED_COLS := by
  rw [buildPayload_eq]
  exact keysIn_dictSet _ (stage4_keys age sel ans) (by decide)

/-- C1: the one-row table assembled by make_input_df has exactly the
schema columns (CAT_COLS followed by NUM_COLS), in schema order, with no
extra and no missing columns: this holds for every payload whose keys lie
in the schema, and in particular for every payload the app constructs and
passes to the assembler, whatever the user selected. -/
theorem make_input_df_exact_schema_columns :
    (∀ pl : Payload, (∀ kv ∈ pl, kv.1 ∈ EXPECTED_COLS) →
        keysOf (make_input_df pl) = EXPECTED_COLS)
    ∧ (∀ (age : Option AgeD) (sel : List Symptom)
        (ans : Symptom → String → Option String),
        keysOf (make_input_df (buildPayload age sel ans)) = EXPECTED_COLS)
    ∧ EXPECTED_COLS = CAT_COLS ++ NUM_COLS :=
  ⟨make_input_df_keys,
   fun age sel ans => make_input_df_keys _ (fun kv hkv =>
     buildPayload_keys age sel ans kv.1 (List.mem_map_of_mem Prod.fst hkv)),
   rfl⟩

/-- Witness for C1 at a concrete payload. -/
theorem make_input_df_exact_schema_columns_witness :
    keysOf (make_input_df [("Age_Group", Val.vstr "caruur")]) = EXPECTED_COLS :=
  make_input_df_exact_schema_columns.1 _ (by decide)

/-- C10 counterexample: with no symptoms selected the constructed payload
leaves Fever_With_Fatigue absent — as the claim says — but the assembled
value is then the string "nan", not null. -/
theorem fever_with_fatigue_counterexample :
    dictGet (buildPayload none [] (fun _ _ => none)) "Fever_With_Fatigue" = none
    ∧ dictGet (make_input_df (buildPayload none [] (fun _ _ => none)))
        "Fever_With_Fatigue" = some (Val.vstr "nan")
    ∧ Val.vstr "nan" ≠ Val.vnan := by
  decide

/-- C10 (amended): the constructed payload sets Fever_With_Fatigue to the
yes-token exactly when both Has_Fever and Has_Fatigue are the yes-token
(i.e. both groups were selected); otherwise the key is left absent, so it
is assembled as the string "nan" (not null, because the assembler
stringifies the NaN default); it is never the no-token — unlike the six
Has_* flags, which are always present, defaulting to the no-token. -/
theorem fever_with_fatigue_spec (age : Option AgeD) (sel : List Symptom)
    (ans : Symptom → String → Option String) :
    (Symptom.fever ∈ sel ∧ Symptom.fatigue ∈ sel →
        dictGet (buildPayload age sel ans) "Fever_With_Fatigue" = some (Val.vstr "haa"))
    ∧ (¬(Symptom.fever ∈ sel ∧ Symptom.fatigue ∈ sel) →
        dictGet (buildPayload age sel ans) "Fever_With_Fatigue" = none
        ∧ dictGet (make_input_df (buildPayload age sel ans)) "Fever_With_Fatigue"
            = some (Val.vstr "nan"))
    ∧ dictGet (buildPayload age sel ans) "Fever_With_Fatigue" ≠ some (Val.vstr "maya")
    ∧ (∀ g : Symptom, dictGet (buildPayload age sel ans) (SYMPTOMS g).flag
        = some (Val.vstr (if g ∈ sel then "haa" else "maya"))) := by
  refine ⟨?_, ?_, ?_, ?_⟩
  · intro h
    rw [buildPayload_get_fwf]
    simp [h]
  · intro h
    have habs : dictGet (buildPayload age sel ans) "Fever_With_Fatigue" = none := by
      rw [buildPayload_get_fwf]
      simp [h]
    refine ⟨habs, ?_⟩
    exact make_input_df_get_cat_absent _ (by decide) (by decide) _ habs
  · rw [buildPayload_get_fwf]
    by_cases h : Symptom.fever ∈ sel ∧ Symptom.fatigue ∈ sel
    · rw [if_pos h]
      decide
    · rw [if_neg h]
      decide
  · intro g
    exact buildPayload_get_flag age sel ans g

/-- Witness for C10 at concrete inputs. -/
theorem fever_with_fatigue_spec_witness :
    dictGet (buildPayload none [Symptom.fever, Symptom.fatigue] (fun _ _ => none))
      "Fever_With_Fatigue" = some (Val.vstr "haa") :=
  (fever_with_fatigue_spec none [Symptom.fever, Symptom.fatigue] (fun _ _ => none)).1
    (by decide)

/-! ## Duration reverse mapping (C4) -/

/-- C4: the reverse duration mapping assigns each displayed phrase the
first-occurring token that renders to it (the dict comprehension's
last-wins overwrite coincides with first-wins here, because the
startswith-normalization collapses both mid-duration spellings to the same
canonical token); consequently round-tripping any duration token through
display and back yields that canonical token — and being a fixed pure
mapping, the result is the same across repeated calls. -/
theorem dur_display_to_token_first_wins :
    DUR_DISPLAY_TO_TOKEN = durFirstWins
    ∧ (DUR_TOKEN_TO_DISPLAY.all (fun kv =>
        dictGet DUR_DISPLAY_TO_TOKEN kv.2
          == (DUR_TOKEN_TO_DISPLAY.find? (fun kv2 => kv2.2 == kv.2)).map Prod.fst)
        = true) := by
  constructor
  · decide
  · decide

/-! ## Presentation mapper (C5) -/

/-- C5: a token containing the emergency marker (in particular one that
also contains the moderate marker) is styled with the red scheme; one
containing only the moderate marker with the amber scheme; everything
else with the green home-care scheme. -/
theorem triage_style_marker_cases (tok : String) :
    (hasSubStr "deg deg" (pyLower tok) = true →
        triage_style_from_token tok = RED_SCHEME)
    ∧ (hasSubStr "deg deg" (pyLower tok) = false →
        hasSubStr "dhax dhaxaad" (pyLower tok) = true →
        triage_style_from_token tok = AMBER_SCHEME)
    ∧ (hasSubStr "deg deg" (pyLower tok) = false →
        hasSubStr "dhax dhaxaad" (pyLower tok) = false →
        triage_style_from_token tok = GREEN_SCHEME) := by
  refine ⟨?_, ?_, ?_⟩
  · intro h
    unfold triage_style_from_token
    rw [if_pos h]
    rfl
  · intro h1 h2
    unfold triage_style_from_token
    rw [if_neg (by simp [h1]), if_pos h2]
    rfl
  · intro h1 h2
    unfold triage_style_from_token
    rw [if_neg (by simp [h1]), if_neg (by simp [h2])]
    rfl

/-- Witness for C5 at the three label tokens and a both-markers token. -/
theorem triage_style_marker_cases_witness :
    triage_style_from_token "Xaalad deg deg ah" = RED_SCHEME
    ∧ triage_style_from_token "Xaalad dhax dhaxaad ah (Bukaan socod)" = AMBER_SCHEME
    ∧ triage_style_from_token "Xaalad fudud (Daryeel guri)" = GREEN_SCHEME
    ∧ triage_style_from_token "deg deg iyo dhax dhaxaad" = RED_SCHEME :=
  ⟨(triage_style_marker_cases "Xaalad deg deg ah").1 (by decide),
   (triage_style_marker_cases "Xaalad dhax dhaxaad ah (Bukaan socod)").2.1
     (by decide) (by decide),
   (triage_style_marker_cases "Xaalad fudud (Daryeel guri)").2.2
     (by decide) (by decide),
   (triage_style_marker_cases "deg deg iyo dhax dhaxaad").1 (by decide)⟩

/-! ## Predictor adapter (C8) -/

/-- C8: decode_label is total (never raises): with an encoder available
and an integer output it returns the decoded token; when the decode fails
(the encoder raises), the encoder is absent, or the output is not an
integer, it returns the stringified raw output. -/
theorem decode_label_fallback_cases (le : Option (Int → Option String)) (y : Val) :
    (∀ enc, le = some enc → ∀ n, y = Val.vint n → ∀ tok, enc n = some tok →
        decode_label le y = tok)
    ∧ (∀ enc, le = some enc → ∀ n, y = Val.vint n → enc n = none →
        decode_label le y = pyStr y)
    ∧ (le = none → decode_label le y = pyStr y)
    ∧ ((∀ n : Int, y ≠ Val.vint n) → decode_label le y = pyStr y) := by
  refine ⟨?_, ?_, ?_, ?_⟩
  · intro enc hle n hy tok henc
    subst hle
    subst hy
    simp [decode_label, henc]
  · intro enc hle n hy henc
    subst hle
    subst hy
    simp [decode_label, henc]
  · intro hle
    subst hle
    cases y <;> rfl
  · intro h
    cases y with
    | vint n => exact absurd rfl (h n)
    | vstr s => cases le <;> rfl
    | vnone => cases le <;> rfl
    | vnan => cases le <;> rfl

/-- Witness for C8: a concrete encoder decoding class 0, and the missing
encoder case. -/
theorem decode_label_fallback_cases_witness :
    decode_label (some (fun n => if n = 0 then some "Xaalad deg deg ah" else none))
        (Val.vint 0) = "Xaalad deg deg ah"
    ∧ decode_label none (Val.vstr "Xaalad fudud (Daryeel guri)")
        = "Xaalad fudud (Daryeel guri)" :=
  ⟨(decode_label_fallback_cases
      (some (fun n => if n = 0 then some "Xaalad deg deg ah" else none))
      (Val.vint 0)).1 _ rfl 0 rfl _ (by decide),
   (decode_label_fallback_cases none
      (Val.vstr "Xaalad fudud (Daryeel guri)")).2.2.1 rfl⟩

/-! ## Label and advice lookup (C9) -/

theorem mem_of_dictGet_some {α : Type} {d : List (String × α)} {k : String} {v : α}
    (h : dictGet d k = some v) : (k, v) ∈ d := by
  induction d with
  | nil => simp [dictGet] at h
  | cons a d ih =>
    obtain ⟨ak, av⟩ := a
    by_cases hak : ak = k
    · subst hak
      simp [dictGet] at h
      subst h
      exact List.mem_cons_self _ _
    · have h' : dictGet d k = some v := by simpa [dictGet, hak] using h
      exact List.mem_cons_of_mem _ (ih h')

/-- C9: a token absent from the label dictionaries renders as the raw
token itself with the generic consult-a-provider advice; a token present
in them renders as the exact dictionary entries. -/
theorem label_advice_lookup_fallback (tok : String) :
    (dictGet LABEL_SO_TO_EN tok = none → label_en tok = tok)
    ∧ (dictGet TRIAGE_TIPS tok = none → tip_text tok = GENERIC_ADVICE)
    ∧ (∀ e, dictGet LABEL_SO_TO_EN tok = some e → label_en tok = e)
    ∧ (∀ t, dictGet TRIAGE_TIPS tok = some t → tip_text tok = t) := by
  refine ⟨?_, ?_, ?_, ?_⟩
  · intro h
    unfold label_en
    rw [h]
    rfl
  · intro h
    unfold tip_text
    rw [h]
  · intro e h
    unfold label_en
    rw [h]
    rfl
  · intro t h
    have hmem := mem_of_dictGet_some h
    have hall : ∀ kv ∈ TRIAGE_TIPS, (kv.2 != "") = true := by decide
    unfold tip_text
    rw [h]
    show (if (t != "") = true then t else GENERIC_ADVICE) = t
    rw [if_pos (hall _ hmem)]

/-- Witness for C9: an unknown token and two known tokens. -/
theorem label_advice_lookup_fallback_witness :
    label_en "Unknown token" = "Unknown token"
    ∧ tip_text "Unknown token" = GENERIC_ADVICE
    ∧ label_en "Xaalad deg deg ah" = "Emergency"
    ∧ tip_text "Xaalad deg deg ah"
        = "Go to the hospital immediately. Do not try home treatment. If possible, go with someone and bring prior prescriptions/records." :=
  ⟨(label_advice_lookup_fallback "Unknown token").1 (by decide),
   (label_advice_lookup_fallback "Unknown token").2.1 (by decide),
   (label_advice_lookup_fallback "Xaalad deg deg ah").2.2.1 _ (by decide),
   (label_advice_lookup_fallback "Xaalad deg deg ah").2.2.2 _ (by decide)⟩

